import Mathlib

/-
Verification of the mosquitto plugin bridge (src/bridge.c): a C adapter
layer that forwards the host broker plugin entry points to a Go runtime
and wraps the host callback-registration and logging facilities for the
Go side.  Pointers are modelled as opaque addresses, the C heap as a
total function from addresses to integers, and every crossing of the C
boundary is recorded in an explicit trace of boundary calls, so that
"forwards unchanged", "exactly one call" and "status verbatim" become
statable properties of the embedded functions.
-/

namespace MosqBridge

/-- Opaque address of a host-owned mosquitto_plugin_id_t handle. -/
structure PluginIdPtr where
  addr : Nat
deriving DecidableEq, Repr

/-- Opaque user-data slot passed at init: the C type is void **, the host
passes the address of a slot it can later dereference once. -/
structure UserDataSlot where
  addr : Nat
deriving DecidableEq, Repr

/-- Opaque user-data value passed at cleanup: the C type is void *, the
already-dereferenced contents of the slot supplied at init. -/
structure UserDataValue where
  val : Nat
deriving DecidableEq, Repr

/-- Pointer indirection of the init user-data parameter (void **). -/
def UserDataSlot.indirection : Nat := 2

/-- Pointer indirection of the cleanup user-data parameter (void *). -/
def UserDataValue.indirection : Nat := 1

/-- Opaque address of a host-owned struct mosquitto_opt array. -/
structure MosqOptPtr where
  addr : Nat
deriving DecidableEq, Repr

/-- A callback function pointer, identified by its code address. -/
abbrev EventCb := Nat

/-- The C heap: integer contents at each address.  Used to model the
supported-versions array handed over at negotiation time. -/
abbrev Heap := Nat → Int

/-- Contents of the int array of length n starting at address base. -/
def readArray (h : Heap) (base : Nat) (n : Nat) : List Int :=
  (List.range n).map fun i => h (base + i)

/-- One call across the C boundary, recording the exact arguments that
were passed to the other side. -/
inductive BoundaryCall where
  | goVersion (supported_version_count : Int) (supported_versions : Nat)
  | goInit (identifier : PluginIdPtr) (userdata : UserDataSlot)
      (options : MosqOptPtr) (option_count : Int)
  | goCleanup (userdata : UserDataValue) (options : MosqOptPtr) (option_count : Int)
  | hostRegister (id : PluginIdPtr) (event : Int) (cb : EventCb)
      (event_data : Option Nat) (userdata : Option Nat)
  | hostUnregister (id : PluginIdPtr) (event : Int) (cb : EventCb)
      (event_data : Option Nat)
  | hostLog (level : Int) (fmt : String) (args : List String)
deriving DecidableEq, Repr

/-- The Go runtime behind the three aliased lifecycle symbols declared in
bridge.c.  Each entry point may read and write the heap and returns an
int status. -/
structure GoEnv where
  go_mosq_plugin_version : Heap → Int → Nat → Int × Heap
  go_mosq_plugin_init : Heap → PluginIdPtr → UserDataSlot → MosqOptPtr → Int → Int × Heap
  go_mosq_plugin_cleanup : Heap → UserDataValue → MosqOptPtr → Int → Int × Heap

/-- mosquitto_plugin_version from bridge.c.  The const int pointer is
cast to a mutable int pointer; the cast is a non-owning reinterpretation
that leaves the address unchanged, so the very same address is forwarded
to go_mosq_plugin_version together with the count, and the returned
status is passed back as is. -/
def mosquitto_plugin_version (env : GoEnv) (h : Heap)
    (supported_version_count : Int) (supported_versions : Nat) :
    Int × Heap × List BoundaryCall :=
  let out := env.go_mosq_plugin_version h supported_version_count supported_versions
  (out.1, out.2, [BoundaryCall.goVersion supported_version_count supported_versions])

/-- mosquitto_plugin_init from bridge.c: forwards the identifier, the
user-data slot (void **), the option list pointer and the option count
unchanged to go_mosq_plugin_init and returns its status. -/
def mosquitto_plugin_init (env : GoEnv) (h : Heap) (identifier : PluginIdPtr)
    (userdata : UserDataSlot) (options : MosqOptPtr) (option_count : Int) :
    Int × Heap × List BoundaryCall :=
  let out := env.go_mosq_plugin_init h identifier userdata options option_count
  (out.1, out.2, [BoundaryCall.goInit identifier userdata options option_count])

/-- mosquitto_plugin_cleanup from bridge.c: takes the user-data value by
single indirection (void *, not the void ** used at init) and forwards
it together with the option list pointer and count unchanged to
go_mosq_plugin_cleanup, returning its status. -/
def mosquitto_plugin_cleanup (env : GoEnv) (h : Heap) (userdata : UserDataValue)
    (options : MosqOptPtr) (option_count : Int) :
    Int × Heap × List BoundaryCall :=
  let out := env.go_mosq_plugin_cleanup h userdata options option_count
  (out.1, out.2, [BoundaryCall.goCleanup userdata options option_count])

/-- One registration held by the host callback registry, together with
the context pointers supplied when it was made. -/
structure Registration where
  id : PluginIdPtr
  event : Int
  cb : EventCb
  event_data : Option Nat
  userdata : Option Nat
deriving DecidableEq, Repr

/-- Host status code for success. -/
def MOSQ_ERR_SUCCESS : Int := 0

/-- Host status code reported when an unregistration finds no matching
registration. -/
def MOSQ_ERR_NOT_FOUND : Int := 6

/-- Host status code reported when a duplicate registration is refused. -/
def MOSQ_ERR_ALREADY_EXISTS : Int := 27

/-- Host-side matching of a stored registration against the
(plugin identifier, event kind, callback) triple. -/
def registrationMatches (id : PluginIdPtr) (event : Int) (cb : EventCb)
    (r : Registration) : Bool :=
  decide (r.id = id ∧ r.event = event ∧ r.cb = cb)

/-- Modelled from the spec: the host broker facility
mosquitto_callback_register, which is part of the broker and not of this
repository.  It refuses a duplicate (identifier, event, callback)
registration and otherwise stores the registration together with the
supplied event-data and userdata context pointers, reporting success. -/
def mosquitto_callback_register (regs : List Registration) (id : PluginIdPtr)
    (event : Int) (cb : EventCb) (event_data : Option Nat) (userdata : Option Nat) :
    Int × List Registration :=
  if regs.any (registrationMatches id event cb) then
    (MOSQ_ERR_ALREADY_EXISTS, regs)
  else
    (MOSQ_ERR_SUCCESS, ⟨id, event, cb, event_data, userdata⟩ :: regs)

/-- Modelled from the spec: the host broker facility
mosquitto_callback_unregister, which is part of the broker and not of
this repository.  It removes the registration matching the
(identifier, event, callback) triple and reports success, or reports a
not-found error when no registration matches. -/
def mosquitto_callback_unregister (regs : List Registration) (id : PluginIdPtr)
    (event : Int) (cb : EventCb) (event_data : Option Nat) :
    Int × List Registration :=
  if regs.any (registrationMatches id event cb) then
    (MOSQ_ERR_SUCCESS, regs.eraseP (registrationMatches id event cb))
  else
    (MOSQ_ERR_NOT_FOUND, regs)

/-- register_event_callback from bridge.c: forwards to
mosquitto_callback_register with NULL event data and NULL userdata. -/
def register_event_callback (regs : List Registration) (id : PluginIdPtr)
    (event : Int) (cb : EventCb) : Int × List Registration × List BoundaryCall :=
  let out := mosquitto_callback_register regs id event cb none none
  (out.1, out.2, [BoundaryCall.hostRegister id event cb none none])

/-- unregister_event_callback from bridge.c: forwards to
mosquitto_callback_unregister with NULL event data. -/
def unregister_event_callback (regs : List Registration) (id : PluginIdPtr)
    (event : Int) (cb : EventCb) : Int × List Registration × List BoundaryCall :=
  let out := mosquitto_callback_unregister regs id event cb none
  (out.1, out.2, [BoundaryCall.hostUnregister id event cb none])

/-- Modelled from the spec: printf-style rendering performed by the host
logging facility.  Percent directives are interpreted in the format
string only; a %s directive consumes the next string argument and
splices its characters verbatim.  Only %s is modelled, the single
directive this adapter ever supplies. -/
def renderFormat : List Char → List String → List Char
  | [], _ => []
  | '%' :: 's' :: rest, a :: args => a.data ++ renderFormat rest args
  | c :: rest, args => c :: renderFormat rest args

/-- Modelled from the spec: the host broker facility mosquitto_log_printf,
which is part of the broker and not of this repository.  It renders the
format string against the variadic arguments and appends the rendered
line at the given level to the host log. -/
def mosquitto_log_printf (log : List (Int × String)) (level : Int)
    (fmt : String) (args : List String) : List (Int × String) :=
  log ++ [(level, String.mk (renderFormat fmt.data args))]

/-- go_mosq_log from bridge.c: relays one preformatted message to
mosquitto_log_printf with the format string fixed to %s and the message
as the single variadic argument.  It returns nothing. -/
def go_mosq_log (log : List (Int × String)) (level : Int) (msg : String) :
    List (Int × String) × List BoundaryCall :=
  (mosquitto_log_printf log level "%s" [msg],
   [BoundaryCall.hostLog level "%s" [msg]])

/-- A C string payload containing no embedded NUL character. -/
abbrev NullFree (s : String) : Prop := ∀ c ∈ s.data, c ≠ Char.ofNat 0

/-- Modelled from the spec: host event-kind constant for the ACL check
event (MOSQ_EVT_ACL_CHECK in the host headers, which are not part of
this repository). -/
def MOSQ_EVT_ACL_CHECK : Int := 2

/-- Modelled from the spec: host event-kind constant for the basic
authentication event (MOSQ_EVT_BASIC_AUTH in the host headers, which are
not part of this repository). -/
def MOSQ_EVT_BASIC_AUTH : Int := 3

/-- Code address of the Go-exported basic authentication callback
declared in bridge.c; distinct exported symbols occupy distinct
addresses. -/
def basic_auth_cb_c : EventCb := 101

/-- Code address of the Go-exported ACL check callback declared in
bridge.c. -/
def acl_check_cb_c : EventCb := 102

/-- Modelled from the spec: the dedicated wrapper registering the basic
authentication callback (the wrapper lives in the Go sources of this
repository, which are not under src/); it specializes
register_event_callback with the basic authentication event kind and
callback. -/
def register_basic_auth (regs : List Registration) (id : PluginIdPtr) :
    Int × List Registration × List BoundaryCall :=
  register_event_callback regs id MOSQ_EVT_BASIC_AUTH basic_auth_cb_c

/-- Modelled from the spec: the dedicated wrapper unregistering the basic
authentication callback. -/
def unregister_basic_auth (regs : List Registration) (id : PluginIdPtr) :
    Int × List Registration × List BoundaryCall :=
  unregister_event_callback regs id MOSQ_EVT_BASIC_AUTH basic_auth_cb_c

/-- Modelled from the spec: the dedicated wrapper registering the ACL
check callback. -/
def register_acl_check (regs : List Registration) (id : PluginIdPtr) :
    Int × List Registration × List BoundaryCall :=
  register_event_callback regs id MOSQ_EVT_ACL_CHECK acl_check_cb_c

/-- Modelled from the spec: the dedicated wrapper unregistering the ACL
check callback. -/
def unregister_acl_check (regs : List Registration) (id : PluginIdPtr) :
    Int × List Registration × List BoundaryCall :=
  unregister_event_callback regs id MOSQ_EVT_ACL_CHECK acl_check_cb_c

/-- Sample Go runtime used to instantiate hypotheses at concrete inputs:
the version entry point answers 5 and never touches the heap, the other
entry points answer 0 and never touch the heap. -/
def sampleGoEnv : GoEnv :=
  ⟨fun h _ _ => (5, h), fun h _ _ _ _ => (0, h), fun h _ _ _ => (0, h)⟩

/-- Sample heap holding 0 at every address. -/
def sampleHeap : Heap := fun _ => 0

/-- A stored registration whose identifier, event and callback all equal
the queried triple matches it. -/
theorem registrationMatches_self (id : PluginIdPtr) (ev : Int) (cb : EventCb)
    (d u : Option Nat) : registrationMatches id ev cb ⟨id, ev, cb, d, u⟩ = true := by
  apply decide_eq_true
  exact ⟨rfl, rfl, rfl⟩

/-- A stored registration holding a different callback never matches. -/
theorem registrationMatches_false_of_cb_ne (id : PluginIdPtr) (ev : Int) (cb : EventCb)
    (r : Registration) (h : ¬ r.cb = cb) : registrationMatches id ev cb r = false := by
  apply decide_eq_false
  intro hp
  exact h hp.2.2

/-- When no stored registration matches the triple, registration is
accepted: the new registration is stored with the two null context
pointers and success is reported. -/
theorem register_accepts (regs : List Registration) (id : PluginIdPtr) (ev : Int)
    (cb : EventCb) (hany : regs.any (registrationMatches id ev cb) = false) :
    register_event_callback regs id ev cb =
      (MOSQ_ERR_SUCCESS, ⟨id, ev, cb, none, none⟩ :: regs,
        [BoundaryCall.hostRegister id ev cb none none]) := by
  simp [register_event_callback, mosquitto_callback_register, hany]

/-- Unregistering a triple whose registration sits at the head of the
registry removes exactly that registration and reports success. -/
theorem unregister_cons_match (regs : List Registration) (id : PluginIdPtr) (ev : Int)
    (cb : EventCb) (d u : Option Nat) :
    unregister_event_callback (⟨id, ev, cb, d, u⟩ :: regs) id ev cb =
      (MOSQ_ERR_SUCCESS, regs, [BoundaryCall.hostUnregister id ev cb none]) := by
  have hm := registrationMatches_self id ev cb d u
  simp [unregister_event_callback, mosquitto_callback_unregister, hm]

/-- Registration is accepted exactly when no stored registration matches
the triple. -/
theorem register_accepted_iff (regs : List Registration) (id : PluginIdPtr) (ev : Int)
    (cb : EventCb) :
    (register_event_callback regs id ev cb).1 = MOSQ_ERR_SUCCESS ↔
      regs.any (registrationMatches id ev cb) = false := by
  cases hb : regs.any (registrationMatches id ev cb) <;>
    simp [register_event_callback, mosquitto_callback_register, hb,
      MOSQ_ERR_SUCCESS, MOSQ_ERR_ALREADY_EXISTS]

/-- Core roundtrip lemma: an accepted registration followed by the
matching unregistration reports success and restores the registry. -/
theorem pair_roundtrip (regs : List Registration) (id : PluginIdPtr) (ev : Int)
    (cb : EventCb) (hany : regs.any (registrationMatches id ev cb) = false) :
    (unregister_event_callback (register_event_callback regs id ev cb).2.1 id ev cb).1
      = MOSQ_ERR_SUCCESS
    ∧ (unregister_event_callback (register_event_callback regs id ev cb).2.1 id ev cb).2.1
      = regs := by
  constructor <;>
    simp [register_accepts regs id ev cb hany, unregister_cons_match]

/-- C1: mosquitto_plugin_cleanup takes the user data by single-level
reference (the void * value, indirection level 1, unlike the void **
slot of init, indirection level 2) and forwards userdata, options and
option_count unchanged to go_mosq_plugin_cleanup in a single boundary
call, returning the status of that call unchanged. -/
theorem cleanup_forwards_single_indirection (env : GoEnv) (h : Heap)
    (userdata : UserDataValue) (options : MosqOptPtr) (option_count : Int) :
    UserDataValue.indirection = 1
    ∧ UserDataSlot.indirection = 2
    ∧ (mosquitto_plugin_cleanup env h userdata options option_count).1
      = (env.go_mosq_plugin_cleanup h userdata options option_count).1
    ∧ (mosquitto_plugin_cleanup env h userdata options option_count).2.2
      = [BoundaryCall.goCleanup userdata options option_count] :=
  ⟨rfl, rfl, rfl, rfl⟩

/-- C2: mosquitto_plugin_version forwards the count and the very same
versions pointer (a non-owning mutability reinterpretation, never a
copy) to go_mosq_plugin_version in a single boundary call; given that
the forwarded runtime never writes through the pointer, the
offered-version sequence is unchanged after the call, and the returned
status is exactly the status of the forwarded call on the same
arguments. -/
theorem version_forwards_readonly (env : GoEnv) (h : Heap)
    (supported_version_count : Int) (supported_versions : Nat) (n : Nat)
    (hro : ∀ h2 c2 p2, (env.go_mosq_plugin_version h2 c2 p2).2 = h2) :
    (mosquitto_plugin_version env h supported_version_count supported_versions).1
      = (env.go_mosq_plugin_version h supported_version_count supported_versions).1
    ∧ readArray (mosquitto_plugin_version env h supported_version_count supported_versions).2.1
        supported_versions n = readArray h supported_versions n
    ∧ (mosquitto_plugin_version env h supported_version_count supported_versions).2.2
      = [BoundaryCall.goVersion supported_version_count supported_versions] := by
  refine ⟨rfl, ?_, rfl⟩
  show readArray (env.go_mosq_plugin_version h supported_version_count supported_versions).2
      supported_versions n = readArray h supported_versions n
  rw [hro]

/-- Witness for C2: the theorem applied to the sample runtime, which
never touches the heap, at count 2, pointer 100 and window 3. -/
theorem version_forwards_readonly_witness :
    (mosquitto_plugin_version sampleGoEnv sampleHeap 2 100).1
      = (sampleGoEnv.go_mosq_plugin_version sampleHeap 2 100).1
    ∧ readArray (mosquitto_plugin_version sampleGoEnv sampleHeap 2 100).2.1 100 3
      = readArray sampleHeap 100 3
    ∧ (mosquitto_plugin_version sampleGoEnv sampleHeap 2 100).2.2
      = [BoundaryCall.goVersion 2 100] :=
  version_forwards_readonly sampleGoEnv sampleHeap 2 100 3 (fun _ _ _ => rfl)

/-- C3: mosquitto_plugin_init forwards the identifier, the user-data
slot, the option list and the option count unchanged to
go_mosq_plugin_init in a single boundary call and returns the status of
that call verbatim, with no retry, recovery or alteration. -/
theorem plugin_forwards_all_arguments (env : GoEnv) (h : Heap)
    (identifier : PluginIdPtr) (userdata : UserDataSlot) (options : MosqOptPtr)
    (option_count : Int) :
    (mosquitto_plugin_init env h identifier userdata options option_count).1
      = (env.go_mosq_plugin_init h identifier userdata options option_count).1
    ∧ (mosquitto_plugin_init env h identifier userdata options option_count).2.2
      = [BoundaryCall.goInit identifier userdata options option_count] :=
  ⟨rfl, rfl⟩

/-- C4: register_event_callback registers the callback with the host
with a null context pointer and a null host-managed cleanup function
(the two trailing arguments of the host call are both none) and returns
the registration status of the host verbatim, together with the
resulting registry state. -/
theorem register_null_context (regs : List Registration) (id : PluginIdPtr)
    (event : Int) (cb : EventCb) :
    (register_event_callback regs id event cb).2.2
      = [BoundaryCall.hostRegister id event cb none none]
    ∧ (register_event_callback regs id event cb).1
      = (mosquitto_callback_register regs id event cb none none).1
    ∧ (register_event_callback regs id event cb).2.1
      = (mosquitto_callback_register regs id event cb none none).2 :=
  ⟨rfl, rfl, rfl⟩

/-- C5: for every level and null-free message, go_mosq_log passes the
message to the host logging facility as the single argument of the fixed
format string so that exactly the literal message text is appended to
the host log at the given level; percent characters inside the message
are never interpreted since rendering only scans the format string. -/
theorem log_literal_passthrough (log : List (Int × String)) (level : Int)
    (msg : String) (hnf : NullFree msg) :
    go_mosq_log log level msg
      = (log ++ [(level, msg)], [BoundaryCall.hostLog level "%s" [msg]]) := by
  have hfmt : ("%s" : String).data = ['%', 's'] := rfl
  have hrender : String.mk (renderFormat ("%s" : String).data [msg]) = msg := by
    rw [hfmt]
    show String.mk (msg.data ++ renderFormat [] []) = msg
    rw [show renderFormat [] [] = [] from rfl, List.append_nil]
  simp [go_mosq_log, mosquitto_log_printf, hrender]

/-- Witness for C5 at level 3 with a message containing a percent
directive, which reaches the log uninterpreted. -/
theorem log_literal_passthrough_witness :
    NullFree "a%sb"
    ∧ go_mosq_log [] 3 "a%sb"
      = ([(3, "a%sb")], [BoundaryCall.hostLog 3 "%s" ["a%sb"]]) :=
  ⟨by decide, log_literal_passthrough [] 3 "a%sb" (by decide)⟩

/-- C10: every adapter function of bridge.c is deterministic and
stateless: its whole output is a tuple built from the response of the
single forwarded boundary call on the unchanged arguments, and its trace
is exactly one boundary call; equal arguments with equal forwarded
responses therefore yield equal results, and no adapter-held state
exists for any function to depend on. -/
theorem adapter_single_call_pure (env : GoEnv) (h : Heap) (c : Int) (p : Nat)
    (idp : PluginIdPtr) (slot : UserDataSlot) (ud : UserDataValue)
    (opts : MosqOptPtr) (n : Int) (regs : List Registration) (ev : Int)
    (cb : EventCb) (log : List (Int × String)) (level : Int) (msg : String) :
    mosquitto_plugin_version env h c p
      = ((env.go_mosq_plugin_version h c p).1, (env.go_mosq_plugin_version h c p).2,
          [BoundaryCall.goVersion c p])
    ∧ mosquitto_plugin_init env h idp slot opts n
      = ((env.go_mosq_plugin_init h idp slot opts n).1,
          (env.go_mosq_plugin_init h idp slot opts n).2,
          [BoundaryCall.goInit idp slot opts n])
    ∧ mosquitto_plugin_cleanup env h ud opts n
      = ((env.go_mosq_plugin_cleanup h ud opts n).1,
          (env.go_mosq_plugin_cleanup h ud opts n).2,
          [BoundaryCall.goCleanup ud opts n])
    ∧ register_event_callback regs idp ev cb
      = ((mosquitto_callback_register regs idp ev cb none none).1,
          (mosquitto_callback_register regs idp ev cb none none).2,
          [BoundaryCall.hostRegister idp ev cb none none])
    ∧ unregister_event_callback regs idp ev cb
      = ((mosquitto_callback_unregister regs idp ev cb none).1,
          (mosquitto_callback_unregister regs idp ev cb none).2,
          [BoundaryCall.hostUnregister idp ev cb none])
    ∧ go_mosq_log log level msg
      = (mosquitto_log_printf log level "%s" [msg],
          [BoundaryCall.hostLog level "%s" [msg]]) :=
  ⟨rfl, rfl, rfl, rfl, rfl, rfl⟩

/-- C6: each of the two concrete event kinds has a dedicated
register/unregister pair specializing the generic registry operations
with the corresponding event-kind constant and callback, and each pair
works independently of the other: each roundtrips over an arbitrary
registry holding no registration of its own triple, and the interleaved
scenario (register basic auth, register ACL check, unregister basic
auth, unregister ACL check) succeeds throughout and restores the
registry. -/
theorem dedicated_pairs_independent (regs : List Registration) (id : PluginIdPtr)
    (hb : regs.any (registrationMatches id MOSQ_EVT_BASIC_AUTH basic_auth_cb_c) = false)
    (ha : regs.any (registrationMatches id MOSQ_EVT_ACL_CHECK acl_check_cb_c) = false) :
    register_basic_auth regs id
        = register_event_callback regs id MOSQ_EVT_BASIC_AUTH basic_auth_cb_c
    ∧ unregister_basic_auth regs id
        = unregister_event_callback regs id MOSQ_EVT_BASIC_AUTH basic_auth_cb_c
    ∧ register_acl_check regs id
        = register_event_callback regs id MOSQ_EVT_ACL_CHECK acl_check_cb_c
    ∧ unregister_acl_check regs id
        = unregister_event_callback regs id MOSQ_EVT_ACL_CHECK acl_check_cb_c
    ∧ (unregister_basic_auth (register_basic_auth regs id).2.1 id).1 = MOSQ_ERR_SUCCESS
    ∧ (unregister_basic_auth (register_basic_auth regs id).2.1 id).2.1 = regs
    ∧ (unregister_acl_check (register_acl_check regs id).2.1 id).1 = MOSQ_ERR_SUCCESS
    ∧ (unregister_acl_check (register_acl_check regs id).2.1 id).2.1 = regs
    ∧ (register_acl_check (register_basic_auth regs id).2.1 id).1 = MOSQ_ERR_SUCCESS
    ∧ (unregister_basic_auth
        (register_acl_check (register_basic_auth regs id).2.1 id).2.1 id).1
        = MOSQ_ERR_SUCCESS
    ∧ (unregister_acl_check
        (unregister_basic_auth
          (register_acl_check (register_basic_auth regs id).2.1 id).2.1 id).2.1
        id).2.1 = regs := by
  have hbm := pair_roundtrip regs id MOSQ_EVT_BASIC_AUTH basic_auth_cb_c hb
  have ham := pair_roundtrip regs id MOSQ_EVT_ACL_CHECK acl_check_cb_c ha
  have hmba : registrationMatches id MOSQ_EVT_ACL_CHECK acl_check_cb_c
      ⟨id, MOSQ_EVT_BASIC_AUTH, basic_auth_cb_c, none, none⟩ = false :=
    registrationMatches_false_of_cb_ne _ _ _ _
      (by show ¬ basic_auth_cb_c = acl_check_cb_c; decide)
  have hmab : registrationMatches id MOSQ_EVT_BASIC_AUTH basic_auth_cb_c
      ⟨id, MOSQ_EVT_ACL_CHECK, acl_check_cb_c, none, none⟩ = false :=
    registrationMatches_false_of_cb_ne _ _ _ _
      (by show ¬ acl_check_cb_c = basic_auth_cb_c; decide)
  have h1 : register_basic_auth regs id
      = (MOSQ_ERR_SUCCESS,
          ⟨id, MOSQ_EVT_BASIC_AUTH, basic_auth_cb_c, none, none⟩ :: regs,
          [BoundaryCall.hostRegister id MOSQ_EVT_BASIC_AUTH basic_auth_cb_c none none]) :=
    register_accepts regs id MOSQ_EVT_BASIC_AUTH basic_auth_cb_c hb
  have h2 : register_acl_check
      (⟨id, MOSQ_EVT_BASIC_AUTH, basic_auth_cb_c, none, none⟩ :: regs) id
      = (MOSQ_ERR_SUCCESS,
          ⟨id, MOSQ_EVT_ACL_CHECK, acl_check_cb_c, none, none⟩ ::
            ⟨id, MOSQ_EVT_BASIC_AUTH, basic_auth_cb_c, none, none⟩ :: regs,
          [BoundaryCall.hostRegister id MOSQ_EVT_ACL_CHECK acl_check_cb_c none none]) :=
    register_accepts _ id MOSQ_EVT_ACL_CHECK acl_check_cb_c (by simp [hmba, ha])
  have h3 : unregister_basic_auth
      (⟨id, MOSQ_EVT_ACL_CHECK, acl_check_cb_c, none, none⟩ ::
        ⟨id, MOSQ_EVT_BASIC_AUTH, basic_auth_cb_c, none, none⟩ :: regs) id
      = (MOSQ_ERR_SUCCESS,
          ⟨id, MOSQ_EVT_ACL_CHECK, acl_check_cb_c, none, none⟩ :: regs,
          [BoundaryCall.hostUnregister id MOSQ_EVT_BASIC_AUTH basic_auth_cb_c none]) := by
    simp [unregister_basic_auth, unregister_event_callback,
      mosquitto_callback_unregister, List.eraseP_cons, hmab, registrationMatches_self]
  have h4 : unregister_acl_check
      (⟨id, MOSQ_EVT_ACL_CHECK, acl_check_cb_c, none, none⟩ :: regs) id
      = (MOSQ_ERR_SUCCESS, regs,
          [BoundaryCall.hostUnregister id MOSQ_EVT_ACL_CHECK acl_check_cb_c none]) :=
    unregister_cons_match regs id MOSQ_EVT_ACL_CHECK acl_check_cb_c none none
  refine ⟨rfl, rfl, rfl, rfl, hbm.1, hbm.2, ham.1, ham.2, ?_, ?_, ?_⟩
  · simp [h1, h2]
  · simp [h1, h2, h3]
  · simp [h1, h2, h3, h4]

/-- Witness for C6 on the empty registry with identifier 7. -/
theorem dedicated_pairs_independent_witness :
    register_basic_auth [] ⟨7⟩
        = register_event_callback [] ⟨7⟩ MOSQ_EVT_BASIC_AUTH basic_auth_cb_c
    ∧ unregister_basic_auth [] ⟨7⟩
        = unregister_event_callback [] ⟨7⟩ MOSQ_EVT_BASIC_AUTH basic_auth_cb_c
    ∧ register_acl_check [] ⟨7⟩
        = register_event_callback [] ⟨7⟩ MOSQ_EVT_ACL_CHECK acl_check_cb_c
    ∧ unregister_acl_check [] ⟨7⟩
        = unregister_event_callback [] ⟨7⟩ MOSQ_EVT_ACL_CHECK acl_check_cb_c
    ∧ (unregister_basic_auth (register_basic_auth [] ⟨7⟩).2.1 ⟨7⟩).1 = MOSQ_ERR_SUCCESS
    ∧ (unregister_basic_auth (register_basic_auth [] ⟨7⟩).2.1 ⟨7⟩).2.1 = []
    ∧ (unregister_acl_check (register_acl_check [] ⟨7⟩).2.1 ⟨7⟩).1 = MOSQ_ERR_SUCCESS
    ∧ (unregister_acl_check (register_acl_check [] ⟨7⟩).2.1 ⟨7⟩).2.1 = []
    ∧ (register_acl_check (register_basic_auth [] ⟨7⟩).2.1 ⟨7⟩).1 = MOSQ_ERR_SUCCESS
    ∧ (unregister_basic_auth
        (register_acl_check (register_basic_auth [] ⟨7⟩).2.1 ⟨7⟩).2.1 ⟨7⟩).1
        = MOSQ_ERR_SUCCESS
    ∧ (unregister_acl_check
        (unregister_basic_auth
          (register_acl_check (register_basic_auth [] ⟨7⟩).2.1 ⟨7⟩).2.1 ⟨7⟩).2.1
        ⟨7⟩).2.1 = [] :=
  dedicated_pairs_independent [] ⟨7⟩ rfl rfl

/-- C7: registering a triple the host registry accepts and then
unregistering it reports success and restores the registry to exactly
its prior state, and repeating the pair from the restored state is
idempotent: the second registration is accepted again and the second
roundtrip restores the same state. -/
theorem register_unregister_roundtrip (regs : List Registration) (id : PluginIdPtr)
    (ev : Int) (cb : EventCb)
    (hacc : (register_event_callback regs id ev cb).1 = MOSQ_ERR_SUCCESS) :
    (unregister_event_callback (register_event_callback regs id ev cb).2.1 id ev cb).1
      = MOSQ_ERR_SUCCESS
    ∧ (unregister_event_callback (register_event_callback regs id ev cb).2.1 id ev cb).2.1
      = regs
    ∧ (register_event_callback
        (unregister_event_callback (register_event_callback regs id ev cb).2.1 id ev cb).2.1
        id ev cb).1 = MOSQ_ERR_SUCCESS
    ∧ (unregister_event_callback
        (register_event_callback
          (unregister_event_callback (register_event_callback regs id ev cb).2.1 id ev cb).2.1
          id ev cb).2.1 id ev cb).2.1 = regs := by
  have hany := (register_accepted_iff regs id ev cb).mp hacc
  have hrt := pair_roundtrip regs id ev cb hany
  refine ⟨hrt.1, hrt.2, ?_, ?_⟩
  · rw [hrt.2]
    exact hacc
  · rw [hrt.2]
    exact hrt.2

/-- Witness for C7 on the empty registry with identifier 1, event kind 3
and callback 7. -/
theorem register_unregister_roundtrip_witness :
    (unregister_event_callback (register_event_callback [] ⟨1⟩ 3 7).2.1 ⟨1⟩ 3 7).1
      = MOSQ_ERR_SUCCESS
    ∧ (unregister_event_callback (register_event_callback [] ⟨1⟩ 3 7).2.1 ⟨1⟩ 3 7).2.1
      = []
    ∧ (register_event_callback
        (unregister_event_callback (register_event_callback [] ⟨1⟩ 3 7).2.1 ⟨1⟩ 3 7).2.1
        ⟨1⟩ 3 7).1 = MOSQ_ERR_SUCCESS
    ∧ (unregister_event_callback
        (register_event_callback
          (unregister_event_callback (register_event_callback [] ⟨1⟩ 3 7).2.1 ⟨1⟩ 3 7).2.1
          ⟨1⟩ 3 7).2.1 ⟨1⟩ 3 7).2.1 = [] :=
  register_unregister_roundtrip [] ⟨1⟩ 3 7 (by decide)

/-- C8: unregistering an event kind with no active registration under
the given identifier reports the not-found status of the host and leaves
the registry unchanged; the not-found status differs from success. -/
theorem unregister_reports_not_found (regs : List Registration) (id : PluginIdPtr)
    (ev : Int) (cb : EventCb)
    (hnone : ∀ r ∈ regs, ¬ (r.id = id ∧ r.event = ev)) :
    (unregister_event_callback regs id ev cb).1 = MOSQ_ERR_NOT_FOUND
    ∧ (unregister_event_callback regs id ev cb).2.1 = regs
    ∧ MOSQ_ERR_NOT_FOUND ≠ MOSQ_ERR_SUCCESS := by
  have hany : regs.any (registrationMatches id ev cb) = false := by
    rw [List.any_eq_false]
    intro r hr hm
    have hp := of_decide_eq_true hm
    exact hnone r hr ⟨hp.1, hp.2.1⟩
  refine ⟨?_, ?_, by decide⟩ <;>
    simp [unregister_event_callback, mosquitto_callback_unregister, hany]

/-- Witness for C8 on the empty registry with identifier 2, event kind 2
and callback 9. -/
theorem unregister_reports_not_found_witness :
    (unregister_event_callback [] ⟨2⟩ 2 9).1 = MOSQ_ERR_NOT_FOUND
    ∧ (unregister_event_callback [] ⟨2⟩ 2 9).2.1 = []
    ∧ MOSQ_ERR_NOT_FOUND ≠ MOSQ_ERR_SUCCESS :=
  unregister_reports_not_found [] ⟨2⟩ 2 9 (by simp)

/-- C9: unregister_event_callback always passes a null event-data
argument to the host unregister facility, matching the null context
passed at registration, so a registration is identified solely by the
(identifier, event kind, callback) triple at both registration and
unregistration; status and registry result come from the host call with
that null argument. -/
theorem unregister_null_event_data (regs : List Registration) (id : PluginIdPtr)
    (ev : Int) (cb : EventCb) :
    (unregister_event_callback regs id ev cb).2.2
      = [BoundaryCall.hostUnregister id ev cb none]
    ∧ (register_event_callback regs id ev cb).2.2
      = [BoundaryCall.hostRegister id ev cb none none]
    ∧ (unregister_event_callback regs id ev cb).1
      = (mosquitto_callback_unregister regs id ev cb none).1
    ∧ (unregister_event_callback regs id ev cb).2.1
      = (mosquitto_callback_unregister regs id ev cb none).2 :=
  ⟨rfl, rfl, rfl, rfl⟩

end MosqBridge
